import Mathlib

/-!
Shallow embedding of `src/clairvoyant/Backtest.py` (the Clairvoyant
walk-forward backtesting engine) and verification of its specification.

The engine's external collaborators — `DateIndex`, `FindConditions`,
`PercentChange` and `Predict` from `clairvoyant.utils`, together with the
scikit-learn `SVC` classifier — live outside the core file.  They are
deterministic for a fixed dataset, so they are modelled as an abstract
`Oracle`: the four resolved window boundary indices (the outputs of the
four `DateIndex` calls), the feature lookup, the forward percent change,
and the classifier's probability query.  A fitted model is determined by
the data it was fitted on, so `predict` takes the training matrices
`(XX, yy)` it was fitted with plus the query vector and returns the pair
`(neg, pos)` of class probabilities, exactly as `Predict(model, Xs)` does.

Machine arithmetic: the Python code computes with floats; the embedding
uses `ℚ` (exact), which is faithful for the control flow verified here
(comparisons against thresholds and against zero).
-/

/-- Abstract interface to the engine's external collaborators for one
fixed dataset: resolved window boundaries (`DateIndex` results), feature
extraction (`FindConditions`), forward percent change (`PercentChange`)
and the classifier probability query (`Predict` on a model fitted with
the given matrices). -/
structure Oracle where
  trainStartIdx : ℕ
  trainEndIdx : ℕ
  testStartIdx : ℕ
  testEndIdx : ℕ
  findConditions : ℕ → String → ℚ
  percentChange : ℕ → ℚ
  predict : List (List ℚ) × List ℕ → List ℚ → ℚ × ℚ

/-- State of a `Backtest` engine instance (`Backtest.__init__`, lines
19–46).  The four window instants are kept as the raw strings handed to
the constructor (their timezone localization and parsing is external);
`dates` records, per run, the four resolved boundary indices (the code
stores the formatted dates found at those indices).  `XX`, `yy` and
`model` are `None` until a run completes; a fitted model is represented
by the matrices it was fitted on. -/
structure Backtest where
  vars : List String
  trainStart : String
  trainEnd : String
  testStart : String
  testEnd : String
  buyThreshold : ℚ
  sellThreshold : ℚ
  C : ℚ
  gamma : ℚ
  continuedTraining : Bool
  stocks : List String
  dates : List (ℕ × ℕ × ℕ × ℕ)
  totalBuys : ℕ
  correctBuys : ℕ
  totalSells : ℕ
  correctSells : ℕ
  XX : Option (List (List ℚ))
  yy : Option (List ℕ)
  model : Option (List (List ℚ) × List ℕ)

/-- `Backtest.__init__` (lines 19–46): stores the configuration unchanged
(the Python defaults are `buyThreshold=0.65`, `sellThreshold=0.65`, `C=1`,
`gamma=10`, `continuedTraining=False`) and initializes all statistics
empty/zero and the visualization state to `None`.  Note: the constructor
performs no validation of any argument. -/
def Backtest.init (vars : List String)
    (trainStart trainEnd testStart testEnd : String)
    (buyThreshold sellThreshold : ℚ) (C gamma : ℚ)
    (continuedTraining : Bool) : Backtest :=
  { vars := vars
    trainStart := trainStart
    trainEnd := trainEnd
    testStart := testStart
    testEnd := testEnd
    buyThreshold := buyThreshold
    sellThreshold := sellThreshold
    C := C
    gamma := gamma
    continuedTraining := continuedTraining
    stocks := []
    dates := []
    totalBuys := 0
    correctBuys := 0
    totalSells := 0
    correctSells := 0
    XX := none
    yy := none
    model := none }

/-- Feature vector for index `i` (lines 68–71 and 96–98): one
`FindConditions` value per configured variable, in configuration order. -/
def features (o : Oracle) (vars : List String) (i : ℕ) : List ℚ :=
  vars.map (fun var => o.findConditions i var)

/-- Label derivation (lines 73–75 and 147–148): percent change `> 0`
labels `1` (up), otherwise `0` (down). -/
def label (v : ℚ) : ℕ := if v > 0 then 1 else 0

/-- The training indices `range(trainStart, trainEnd+1)` (line 66). -/
def trainingRange (trainStart trainEnd : ℕ) : List ℕ :=
  List.range' trainStart (trainEnd + 1 - trainStart)

/-- Initial training matrix `X` (lines 65–71): a feature vector per
training index. -/
def initialX (o : Oracle) (vars : List String) : List (List ℚ) :=
  (trainingRange o.trainStartIdx o.trainEndIdx).map (fun i => features o vars i)

/-- Initial label vector `y` (lines 73–75): the label of the percent
change one period ahead of each training index. -/
def initialY (o : Oracle) : List ℕ :=
  (trainingRange o.trainStartIdx o.trainEndIdx).map
    (fun i => label (o.percentChange (i + 1)))

/-- Decision rule (lines 102–104): buy is checked first, then sell, else
hold.  Encoded as in the code: `1` = buy, `-1` = sell, `0` = hold. -/
def prediction (buyThreshold sellThreshold neg pos : ℚ) : ℤ :=
  if pos ≥ buyThreshold then 1
  else if neg ≥ sellThreshold then -1
  else 0

/-- Mutable state threaded through the testing loop: the four statistics
counters of the engine plus the training matrices and the currently
fitted model. -/
structure LoopState where
  totalBuys : ℕ
  correctBuys : ℕ
  totalSells : ℕ
  correctSells : ℕ
  X : List (List ℚ)
  y : List ℕ
  model : List (List ℚ) × List ℕ

attribute [ext] LoopState

/-- Counter update after the decision (lines 106–110): a buy increments
`totalBuys`, a sell increments `totalSells`, a hold increments neither. -/
def decisionCount (p : ℤ) (s : LoopState) : LoopState :=
  if p = 1 then { s with totalBuys := s.totalBuys + 1 }
  else if p = -1 then { s with totalSells := s.totalSells + 1 }
  else s

/-- Correctness bookkeeping (lines 120–136), evaluated at the percent
change `perf` of the period after the decision: cases 1–5 of the code
collapse to incrementing `correctBuys` when a buy sees `perf > 0`,
incrementing `correctSells` when a sell sees `perf < 0`, and doing
nothing otherwise. -/
def recordCorrect (p : ℤ) (perf : ℚ) (s : LoopState) : LoopState :=
  if p = 1 ∧ perf > 0 then { s with correctBuys := s.correctBuys + 1 }
  else if p = -1 ∧ perf < 0 then { s with correctSells := s.correctSells + 1 }
  else s

/-- Continued-training update (lines 143–152): when enabled, append the
test period's feature vector and the label of the observed outcome to the
training set and refit the model on the full accumulated set. -/
def updateModel (ct : Bool) (Xs : List ℚ) (perf : ℚ) (s : LoopState) : LoopState :=
  if ct then
    let X' := s.X ++ [Xs]
    let y' := s.y ++ [label perf]
    { s with X := X', y := y', model := (X', y') }
  else s

/-- One iteration of the testing loop body (lines 96–152) for the test
cursor at `t`: extract features at `t`, query the model, decide, count
the decision, advance the cursor (`testPeriod += 1`, line 112) and judge
the decision against the percent change at the advanced cursor `t + 1`,
then optionally retrain. -/
def testStep (o : Oracle) (b : Backtest) (t : ℕ) (s : LoopState) : LoopState :=
  let Xs := features o b.vars t
  let np := o.predict s.model Xs
  let p := prediction b.buyThreshold b.sellThreshold np.1 np.2
  updateModel b.continuedTraining Xs (o.percentChange (t + 1))
    (recordCorrect p (o.percentChange (t + 1)) (decisionCount p s))

/-- The testing loop (lines 87–152): `while testPeriod < testEnd`, run
the body and continue with the cursor advanced by one. -/
def testLoop (o : Oracle) (b : Backtest) (t : ℕ) (s : LoopState) : LoopState :=
  if t < o.testEndIdx then testLoop o b (t + 1) (testStep o b t s)
  else s
termination_by o.testEndIdx - t
decreasing_by omega

/-- The state of `Backtest.runModel` after the initial-training phase
(lines 61–81): the engine's current counter values (the code mutates
`self.totalBuys` etc. in place, continuing from their current values),
the initial training matrices, and the model fitted on them once. -/
def initialState (o : Oracle) (b : Backtest) : LoopState :=
  { totalBuys := b.totalBuys
    correctBuys := b.correctBuys
    totalSells := b.totalSells
    correctSells := b.correctSells
    X := initialX o b.vars
    y := initialY o
    model := (initialX o b.vars, initialY o) }

/-- `Backtest.runModel` (lines 48–157): record the resolved boundary
dates, build the initial training set and fit once, run the testing loop
from the resolved test start, and retain the final matrices and model for
visualization. -/
def runModel (o : Oracle) (b : Backtest) : Backtest :=
  let s := testLoop o b o.testStartIdx (initialState o b)
  { b with
      dates := b.dates ++ [(o.trainStartIdx, o.trainEndIdx, o.testStartIdx, o.testEndIdx)]
      totalBuys := s.totalBuys
      correctBuys := s.correctBuys
      totalSells := s.totalSells
      correctSells := s.correctSells
      XX := some s.X
      yy := some s.y
      model := some s.model }

/-- Round to two decimal places with round-half-to-even ties, as Python's
`round(x, 2)` behaves on the exact value. -/
def round2 (x : ℚ) : ℚ :=
  let s := x * 100
  let f := ⌊s⌋
  let r := s - f
  let n : ℤ :=
    if r < 1 / 2 then f
    else if r > 1 / 2 then f + 1
    else if f % 2 = 0 then f else f + 1
  (n : ℚ) / 100

/-- `Backtest.buyStats` (lines 159–161): buy accuracy percentage; a zero
`totalBuys` raises `ZeroDivisionError`, caught and turned into `0.0`. -/
def buyStats (b : Backtest) : ℚ :=
  if b.totalBuys = 0 then 0
  else round2 ((b.correctBuys : ℚ) / (b.totalBuys : ℚ) * 100)

/-- `Backtest.sellStats` (lines 163–165): sell accuracy percentage with
the same zero-division handling. -/
def sellStats (b : Backtest) : ℚ :=
  if b.totalSells = 0 then 0
  else round2 ((b.correctSells : ℚ) / (b.totalSells : ℚ) * 100)

/-- Observable outcome of `Backtest.visualizeModel`: either one of its
printed precondition errors (after which it returns without output), or
the plot saved to `<stock>.png`. -/
inductive VizOutcome where
  | precondError (msg : String)
  | saved (filename : String)
deriving DecidableEq

/-- True exactly on the precondition-error outcome. -/
def VizOutcome.isError : VizOutcome → Bool
  | .precondError _ => true
  | .saved _ => false

/-- `Backtest.visualizeModel` (lines 218–247), up to its observable
outcome: the guards of lines 220–225 in order, then the (external)
plotting work ending in `plt.savefig(stock+".png")`. -/
def visualizeModel (b : Backtest) : VizOutcome :=
  if b.vars.length ≠ 2 then
    .precondError "Error: Plotting is restricted to 2 dimensions"
  else if b.XX = none ∨ b.yy = none ∨ b.model = none then
    .precondError "Error: Please run model before visualizing"
  else
    .saved ((b.stocks.getLast?).getD "" ++ ".png")

/-- The decision taken at test index `t` in loop state `s`: the value of
`prediction` on the model's probability answer there (lines 100–104). -/
def predAt (o : Oracle) (b : Backtest) (t : ℕ) (s : LoopState) : ℤ :=
  prediction b.buyThreshold b.sellThreshold
    (o.predict s.model (features o b.vars t)).1
    (o.predict s.model (features o b.vars t)).2

theorem decisionCount_totalBuys (p : ℤ) (s : LoopState) :
    (decisionCount p s).totalBuys = s.totalBuys + (if p = 1 then 1 else 0) := by
  unfold decisionCount
  split_ifs <;> simp_all

theorem decisionCount_totalSells (p : ℤ) (s : LoopState) :
    (decisionCount p s).totalSells = s.totalSells + (if p = -1 then 1 else 0) := by
  unfold decisionCount
  split_ifs <;> simp_all

theorem decisionCount_correctBuys (p : ℤ) (s : LoopState) :
    (decisionCount p s).correctBuys = s.correctBuys := by
  unfold decisionCount
  split_ifs <;> rfl

theorem decisionCount_correctSells (p : ℤ) (s : LoopState) :
    (decisionCount p s).correctSells = s.correctSells := by
  unfold decisionCount
  split_ifs <;> rfl

theorem decisionCount_X (p : ℤ) (s : LoopState) :
    (decisionCount p s).X = s.X := by
  unfold decisionCount
  split_ifs <;> rfl

theorem decisionCount_y (p : ℤ) (s : LoopState) :
    (decisionCount p s).y = s.y := by
  unfold decisionCount
  split_ifs <;> rfl

theorem decisionCount_model (p : ℤ) (s : LoopState) :
    (decisionCount p s).model = s.model := by
  unfold decisionCount
  split_ifs <;> rfl

theorem recordCorrect_correctBuys (p : ℤ) (perf : ℚ) (s : LoopState) :
    (recordCorrect p perf s).correctBuys =
      s.correctBuys + (if p = 1 ∧ perf > 0 then 1 else 0) := by
  unfold recordCorrect
  split_ifs <;> simp_all

theorem recordCorrect_correctSells (p : ℤ) (perf : ℚ) (s : LoopState) :
    (recordCorrect p perf s).correctSells =
      s.correctSells + (if p = -1 ∧ perf < 0 then 1 else 0) := by
  unfold recordCorrect
  split_ifs <;> simp_all

theorem recordCorrect_totalBuys (p : ℤ) (perf : ℚ) (s : LoopState) :
    (recordCorrect p perf s).totalBuys = s.totalBuys := by
  unfold recordCorrect
  split_ifs <;> rfl

theorem recordCorrect_totalSells (p : ℤ) (perf : ℚ) (s : LoopState) :
    (recordCorrect p perf s).totalSells = s.totalSells := by
  unfold recordCorrect
  split_ifs <;> rfl

theorem recordCorrect_X (p : ℤ) (perf : ℚ) (s : LoopState) :
    (recordCorrect p perf s).X = s.X := by
  unfold recordCorrect
  split_ifs <;> rfl

theorem recordCorrect_y (p : ℤ) (perf : ℚ) (s : LoopState) :
    (recordCorrect p perf s).y = s.y := by
  unfold recordCorrect
  split_ifs <;> rfl

theorem recordCorrect_model (p : ℤ) (perf : ℚ) (s : LoopState) :
    (recordCorrect p perf s).model = s.model := by
  unfold recordCorrect
  split_ifs <;> rfl

theorem updateModel_totalBuys (ct : Bool) (Xs : List ℚ) (perf : ℚ) (s : LoopState) :
    (updateModel ct Xs perf s).totalBuys = s.totalBuys := by
  unfold updateModel
  split_ifs <;> rfl

theorem updateModel_totalSells (ct : Bool) (Xs : List ℚ) (perf : ℚ) (s : LoopState) :
    (updateModel ct Xs perf s).totalSells = s.totalSells := by
  unfold updateModel
  split_ifs <;> rfl

theorem updateModel_correctBuys (ct : Bool) (Xs : List ℚ) (perf : ℚ) (s : LoopState) :
    (updateModel ct Xs perf s).correctBuys = s.correctBuys := by
  unfold updateModel
  split_ifs <;> rfl

theorem updateModel_correctSells (ct : Bool) (Xs : List ℚ) (perf : ℚ) (s : LoopState) :
    (updateModel ct Xs perf s).correctSells = s.correctSells := by
  unfold updateModel
  split_ifs <;> rfl

theorem updateModel_X (ct : Bool) (Xs : List ℚ) (perf : ℚ) (s : LoopState) :
    (updateModel ct Xs perf s).X = if ct then s.X ++ [Xs] else s.X := by
  unfold updateModel
  split_ifs <;> rfl

theorem updateModel_y (ct : Bool) (Xs : List ℚ) (perf : ℚ) (s : LoopState) :
    (updateModel ct Xs perf s).y = if ct then s.y ++ [label perf] else s.y := by
  unfold updateModel
  split_ifs <;> rfl

theorem updateModel_model (ct : Bool) (Xs : List ℚ) (perf : ℚ) (s : LoopState) :
    (updateModel ct Xs perf s).model =
      if ct then (s.X ++ [Xs], s.y ++ [label perf]) else s.model := by
  unfold updateModel
  split_ifs <;> rfl

theorem testStep_totalBuys (o : Oracle) (b : Backtest) (t : ℕ) (s : LoopState) :
    (testStep o b t s).totalBuys =
      s.totalBuys + (if predAt o b t s = 1 then 1 else 0) := by
  simp [testStep, predAt, updateModel_totalBuys, recordCorrect_totalBuys,
    decisionCount_totalBuys]

theorem testStep_totalSells (o : Oracle) (b : Backtest) (t : ℕ) (s : LoopState) :
    (testStep o b t s).totalSells =
      s.totalSells + (if predAt o b t s = -1 then 1 else 0) := by
  simp [testStep, predAt, updateModel_totalSells, recordCorrect_totalSells,
    decisionCount_totalSells]

theorem testStep_correctBuys (o : Oracle) (b : Backtest) (t : ℕ) (s : LoopState) :
    (testStep o b t s).correctBuys =
      s.correctBuys +
        (if predAt o b t s = 1 ∧ o.percentChange (t + 1) > 0 then 1 else 0) := by
  simp [testStep, predAt, updateModel_correctBuys, recordCorrect_correctBuys,
    decisionCount_correctBuys]

theorem testStep_correctSells (o : Oracle) (b : Backtest) (t : ℕ) (s : LoopState) :
    (testStep o b t s).correctSells =
      s.correctSells +
        (if predAt o b t s = -1 ∧ o.percentChange (t + 1) < 0 then 1 else 0) := by
  simp [testStep, predAt, updateModel_correctSells, recordCorrect_correctSells,
    decisionCount_correctSells]

theorem testStep_X (o : Oracle) (b : Backtest) (t : ℕ) (s : LoopState) :
    (testStep o b t s).X =
      if b.continuedTraining then s.X ++ [features o b.vars t] else s.X := by
  simp [testStep, updateModel_X, recordCorrect_X, decisionCount_X]

theorem testStep_y (o : Oracle) (b : Backtest) (t : ℕ) (s : LoopState) :
    (testStep o b t s).y =
      if b.continuedTraining then
        s.y ++ [label (o.percentChange (t + 1))]
      else s.y := by
  simp [testStep, updateModel_y, recordCorrect_y, decisionCount_y]

theorem testStep_model (o : Oracle) (b : Backtest) (t : ℕ) (s : LoopState) :
    (testStep o b t s).model =
      if b.continuedTraining then
        (s.X ++ [features o b.vars t], s.y ++ [label (o.percentChange (t + 1))])
      else s.model := by
  simp [testStep, updateModel_model, recordCorrect_model, recordCorrect_X,
    recordCorrect_y, decisionCount_model, decisionCount_X, decisionCount_y]

theorem testLoop_eq_foldl (o : Oracle) (b : Backtest) :
    ∀ n t s, o.testEndIdx - t = n →
      testLoop o b t s =
        (List.range' t (o.testEndIdx - t)).foldl (fun s i => testStep o b i s) s := by
  intro n
  induction n with
  | zero =>
      intro t s hn
      rw [testLoop, if_neg (by omega), hn]
      simp
  | succ n ih =>
      intro t s hn
      rw [testLoop, if_pos (by omega), hn, List.range'_succ, List.foldl_cons]
      have h2 : o.testEndIdx - (t + 1) = n := by omega
      rw [ih (t + 1) (testStep o b t s) h2, h2]

theorem testLoop_X_of_not_ct (o : Oracle) (b : Backtest)
    (hct : b.continuedTraining = false) :
    ∀ n t s, o.testEndIdx - t = n →
      (testLoop o b t s).X = s.X ∧ (testLoop o b t s).y = s.y := by
  intro n
  induction n with
  | zero =>
      intro t s hn
      rw [testLoop, if_neg (by omega)]
      exact ⟨rfl, rfl⟩
  | succ n ih =>
      intro t s hn
      rw [testLoop, if_pos (by omega)]
      have h2 := ih (t + 1) (testStep o b t s) (by omega)
      rw [h2.1, h2.2, testStep_X, testStep_y, hct]
      simp

theorem testLoop_len_of_ct (o : Oracle) (b : Backtest)
    (hct : b.continuedTraining = true) :
    ∀ n t s, o.testEndIdx - t = n →
      (testLoop o b t s).X.length = s.X.length + (o.testEndIdx - t) ∧
      (testLoop o b t s).y.length = s.y.length + (o.testEndIdx - t) := by
  intro n
  induction n with
  | zero =>
      intro t s hn
      rw [testLoop, if_neg (by omega), hn]
      exact ⟨rfl, rfl⟩
  | succ n ih =>
      intro t s hn
      rw [testLoop, if_pos (by omega)]
      have h2 := ih (t + 1) (testStep o b t s) (by omega)
      rw [h2.1, h2.2, testStep_X, testStep_y, hct]
      constructor <;> simp <;> omega

/-- Spec-side helper: add a fixed vector of counter values to a loop
state, leaving the training data and model untouched. -/
def addCounters (c : ℕ × ℕ × ℕ × ℕ) (s : LoopState) : LoopState :=
  { s with
      totalBuys := c.1 + s.totalBuys
      correctBuys := c.2.1 + s.correctBuys
      totalSells := c.2.2.1 + s.totalSells
      correctSells := c.2.2.2 + s.correctSells }

theorem predAt_addCounters (o : Oracle) (b : Backtest) (t : ℕ)
    (c : ℕ × ℕ × ℕ × ℕ) (s : LoopState) :
    predAt o b t (addCounters c s) = predAt o b t s := by
  simp [predAt, addCounters]

theorem testStep_addCounters (o : Oracle) (b : Backtest) (t : ℕ)
    (c : ℕ × ℕ × ℕ × ℕ) (s : LoopState) :
    testStep o b t (addCounters c s) = addCounters c (testStep o b t s) := by
  apply LoopState.ext
  · rw [testStep_totalBuys, predAt_addCounters]
    simp [addCounters, testStep_totalBuys]
    omega
  · rw [testStep_correctBuys, predAt_addCounters]
    simp [addCounters, testStep_correctBuys]
    omega
  · rw [testStep_totalSells, predAt_addCounters]
    simp [addCounters, testStep_totalSells]
    omega
  · rw [testStep_correctSells, predAt_addCounters]
    simp [addCounters, testStep_correctSells]
    omega
  · rw [testStep_X]
    simp [addCounters, testStep_X]
  · rw [testStep_y]
    simp [addCounters, testStep_y]
  · rw [testStep_model]
    simp [addCounters, testStep_model]

theorem testLoop_addCounters (o : Oracle) (b : Backtest) (c : ℕ × ℕ × ℕ × ℕ) :
    ∀ n t s, o.testEndIdx - t = n →
      testLoop o b t (addCounters c s) = addCounters c (testLoop o b t s) := by
  intro n
  induction n with
  | zero =>
      intro t s hn
      rw [testLoop, if_neg (by omega), testLoop, if_neg (by omega)]
  | succ n ih =>
      intro t s hn
      rw [testLoop, if_pos (by omega), testStep_addCounters,
        ih (t + 1) (testStep o b t s) (by omega)]
      conv_rhs => rw [testLoop, if_pos (show t < o.testEndIdx by omega)]

theorem testStep_counters_le (o : Oracle) (b : Backtest) (t : ℕ) (s : LoopState)
    (hb : s.correctBuys ≤ s.totalBuys) (hs : s.correctSells ≤ s.totalSells) :
    (testStep o b t s).correctBuys ≤ (testStep o b t s).totalBuys ∧
      (testStep o b t s).correctSells ≤ (testStep o b t s).totalSells := by
  rw [testStep_totalBuys, testStep_correctBuys, testStep_totalSells,
    testStep_correctSells]
  constructor
  · split_ifs with h1 h2
    · omega
    · exact absurd h1.1 h2
    · omega
    · omega
  · split_ifs with h1 h2
    · omega
    · exact absurd h1.1 h2
    · omega
    · omega

theorem testLoop_counters_le (o : Oracle) (b : Backtest) :
    ∀ n t s, o.testEndIdx - t = n →
      s.correctBuys ≤ s.totalBuys → s.correctSells ≤ s.totalSells →
      (testLoop o b t s).correctBuys ≤ (testLoop o b t s).totalBuys ∧
        (testLoop o b t s).correctSells ≤ (testLoop o b t s).totalSells := by
  intro n
  induction n with
  | zero =>
      intro t s hn h1 h2
      rw [testLoop, if_neg (by omega)]
      exact ⟨h1, h2⟩
  | succ n ih =>
      intro t s hn h1 h2
      rw [testLoop, if_pos (by omega)]
      have hstep := testStep_counters_le o b t s h1 h2
      exact ih (t + 1) (testStep o b t s) (by omega) hstep.1 hstep.2

theorem prediction_buy_mono (b1 b2 sT neg pos : ℚ) (hb : b1 ≤ b2)
    (hp : prediction b2 sT neg pos = 1) : prediction b1 sT neg pos = 1 := by
  unfold prediction at hp ⊢
  split_ifs at hp ⊢ <;> first | rfl | omega | linarith

theorem testLoop_buyThreshold_mono (o : Oracle) (b : Backtest) (b1 b2 : ℚ)
    (hb : b1 ≤ b2) :
    ∀ n t s1 s2, o.testEndIdx - t = n →
      s1.X = s2.X → s1.y = s2.y → s1.model = s2.model →
      s2.totalBuys ≤ s1.totalBuys →
      (testLoop o { b with buyThreshold := b2 } t s2).totalBuys ≤
        (testLoop o { b with buyThreshold := b1 } t s1).totalBuys := by
  intro n
  induction n with
  | zero =>
      intro t s1 s2 hn _ _ _ hc
      rw [testLoop, if_neg (by omega), testLoop, if_neg (by omega)]
      exact hc
  | succ n ih =>
      intro t s1 s2 hn hX hy hm hc
      rw [testLoop, if_pos (by omega)]
      conv_rhs => rw [testLoop, if_pos (show t < o.testEndIdx by omega)]
      have hkey : predAt o { b with buyThreshold := b2 } t s2 = 1 →
          predAt o { b with buyThreshold := b1 } t s1 = 1 := by
        simp only [predAt, hm]
        exact prediction_buy_mono b1 b2 b.sellThreshold _ _ hb
      refine ih (t + 1) (testStep o { b with buyThreshold := b1 } t s1)
        (testStep o { b with buyThreshold := b2 } t s2) (by omega) ?_ ?_ ?_ ?_
      · rw [testStep_X, testStep_X, hX]
      · rw [testStep_y, testStep_y, hy]
      · rw [testStep_model, testStep_model, hX, hy, hm]
      · rw [testStep_totalBuys, testStep_totalBuys]
        split_ifs with h1 h2
        · omega
        · exact absurd (hkey h1) h2
        · omega
        · omega

theorem runModel_totalBuys (o : Oracle) (b : Backtest) :
    (runModel o b).totalBuys =
      (testLoop o b o.testStartIdx (initialState o b)).totalBuys := rfl

theorem runModel_correctBuys (o : Oracle) (b : Backtest) :
    (runModel o b).correctBuys =
      (testLoop o b o.testStartIdx (initialState o b)).correctBuys := rfl

theorem runModel_totalSells (o : Oracle) (b : Backtest) :
    (runModel o b).totalSells =
      (testLoop o b o.testStartIdx (initialState o b)).totalSells := rfl

theorem runModel_correctSells (o : Oracle) (b : Backtest) :
    (runModel o b).correctSells =
      (testLoop o b o.testStartIdx (initialState o b)).correctSells := rfl

theorem runModel_XX (o : Oracle) (b : Backtest) :
    (runModel o b).XX =
      some (testLoop o b o.testStartIdx (initialState o b)).X := rfl

theorem runModel_yy (o : Oracle) (b : Backtest) :
    (runModel o b).yy =
      some (testLoop o b o.testStartIdx (initialState o b)).y := rfl

theorem runModel_dates (o : Oracle) (b : Backtest) :
    (runModel o b).dates =
      b.dates ++ [(o.trainStartIdx, o.trainEndIdx, o.testStartIdx, o.testEndIdx)] := rfl

theorem initialX_length (o : Oracle) (vars : List String) :
    (initialX o vars).length = o.trainEndIdx + 1 - o.trainStartIdx := by
  simp [initialX, trainingRange]

theorem initialY_length (o : Oracle) :
    (initialY o).length = o.trainEndIdx + 1 - o.trainStartIdx := by
  simp [initialY, trainingRange]

/-- A small concrete dataset interface used to instantiate the theorems:
five periods, two features, percent changes `+1` then `-1` over the test
window, and a classifier that always answers `(0.3, 0.7)`. -/
def oW : Oracle :=
  { trainStartIdx := 0
    trainEndIdx := 1
    testStartIdx := 2
    testEndIdx := 4
    findConditions := fun i _ => (i : ℚ)
    percentChange := fun i => if i = 3 then 1 else if i = 4 then -1 else 0
    predict := fun _ _ => (3 / 10, 7 / 10) }

/-- A concrete engine with the Python default configuration. -/
def bW : Backtest :=
  Backtest.init ["EMA8", "SMA50"] "2013-03-01" "2015-03-01" "2015-03-01"
    "2016-06-01" (65 / 100) (65 / 100) 1 10 false

/-- A concrete loop state. -/
def sW : LoopState :=
  { totalBuys := 0
    correctBuys := 0
    totalSells := 0
    correctSells := 0
    X := [[0, 0], [1, 1]]
    y := [0, 0]
    model := ([[0, 0], [1, 1]], [0, 0]) }

/-- C1: in the walk-forward loop the decision rule is evaluated in
priority order with buy first: if `P(up) ≥ buyThreshold` the decision is
Buy; else if `P(down) ≥ sellThreshold` it is Sell; else Hold.  Whenever
both thresholds hold simultaneously the decision is Buy and never Sell,
for all threshold pairs, and the loop body then counts a buy and not a
sell. -/
theorem decision_rule_buy_first :
    (∀ buyThreshold sellThreshold neg pos : ℚ,
      (pos ≥ buyThreshold →
        prediction buyThreshold sellThreshold neg pos = 1) ∧
      (¬ pos ≥ buyThreshold → neg ≥ sellThreshold →
        prediction buyThreshold sellThreshold neg pos = -1) ∧
      (¬ pos ≥ buyThreshold → ¬ neg ≥ sellThreshold →
        prediction buyThreshold sellThreshold neg pos = 0) ∧
      (pos ≥ buyThreshold → neg ≥ sellThreshold →
        prediction buyThreshold sellThreshold neg pos = 1 ∧
        prediction buyThreshold sellThreshold neg pos ≠ -1)) ∧
    (∀ (o : Oracle) (b : Backtest) (t : ℕ) (s : LoopState),
      (o.predict s.model (features o b.vars t)).2 ≥ b.buyThreshold →
      (o.predict s.model (features o b.vars t)).1 ≥ b.sellThreshold →
      (testStep o b t s).totalBuys = s.totalBuys + 1 ∧
      (testStep o b t s).totalSells = s.totalSells) := by
  constructor
  · intro bT sT neg pos
    refine ⟨fun h => ?_, fun h1 h2 => ?_, fun h1 h2 => ?_, fun h1 h2 => ?_⟩ <;>
      unfold prediction
    · rw [if_pos h]
    · rw [if_neg h1, if_pos h2]
    · rw [if_neg h1, if_neg h2]
    · rw [if_pos h1]
      exact ⟨rfl, by decide⟩
  · intro o b t s hbuy hsell
    have hp : predAt o b t s = 1 := by
      unfold predAt prediction
      rw [if_pos hbuy]
    rw [testStep_totalBuys, testStep_totalSells, hp]
    norm_num

/-- Witness for C1: with both probabilities at their maximum and both
thresholds at zero, both threshold tests pass and the decision is Buy,
not Sell. -/
theorem decision_rule_buy_first_witness :
    prediction 0 0 1 1 = 1 ∧ prediction 0 0 1 1 ≠ -1 :=
  (decision_rule_buy_first.1 0 0 1 1).2.2.2 (by decide) (by decide)

/-- C2: the testing loop is a single pass over the strictly increasing
step-1 index sequence starting at the test cursor and running while
`t < testEnd`, and within each iteration the cursor is advanced before
the outcome is computed: the outcome judged against the decision made at
index `t` is the percent change at index `t + 1`. -/
theorem loop_single_pass_outcome_next :
    (∀ (o : Oracle) (b : Backtest) (t : ℕ) (s : LoopState),
      testLoop o b t s =
        (List.range' t (o.testEndIdx - t)).foldl
          (fun s i => testStep o b i s) s) ∧
    (∀ (o : Oracle) (b : Backtest) (t : ℕ) (s : LoopState),
      (testStep o b t s).correctBuys =
        s.correctBuys +
          (if predAt o b t s = 1 ∧ o.percentChange (t + 1) > 0 then 1 else 0) ∧
      (testStep o b t s).correctSells =
        s.correctSells +
          (if predAt o b t s = -1 ∧ o.percentChange (t + 1) < 0 then 1
           else 0)) := by
  constructor
  · intro o b t s
    exact testLoop_eq_foldl o b (o.testEndIdx - t) t s rfl
  · intro o b t s
    exact ⟨testStep_correctBuys o b t s, testStep_correctSells o b t s⟩

/-- C3: an outcome of exactly 0 counts as incorrect for both Buy and
Sell: a Buy increments `correctBuys` iff the outcome is strictly
positive, a Sell increments `correctSells` iff the outcome is strictly
negative, and a Hold decision increments neither correct counter. -/
theorem zero_outcome_incorrect (o : Oracle) (b : Backtest) (t : ℕ)
    (s : LoopState) :
    ((testStep o b t s).correctBuys = s.correctBuys + 1 ↔
      predAt o b t s = 1 ∧ o.percentChange (t + 1) > 0) ∧
    ((testStep o b t s).correctSells = s.correctSells + 1 ↔
      predAt o b t s = -1 ∧ o.percentChange (t + 1) < 0) ∧
    (o.percentChange (t + 1) = 0 →
      (testStep o b t s).correctBuys = s.correctBuys ∧
      (testStep o b t s).correctSells = s.correctSells) ∧
    (predAt o b t s = 0 →
      (testStep o b t s).correctBuys = s.correctBuys ∧
      (testStep o b t s).correctSells = s.correctSells) := by
  rw [testStep_correctBuys, testStep_correctSells]
  refine ⟨?_, ?_, ?_, ?_⟩
  · split_ifs with h <;> simp [h]
  · split_ifs with h <;> simp [h]
  · intro h0
    rw [h0]
    norm_num
  · intro hp
    rw [hp]
    norm_num

/-- Witness for C3: at a test index whose following percent change is
exactly zero, neither correct counter moves. -/
theorem zero_outcome_incorrect_witness :
    (testStep oW bW 0 sW).correctBuys = sW.correctBuys ∧
    (testStep oW bW 0 sW).correctSells = sW.correctSells :=
  (zero_outcome_incorrect oW bW 0 sW).2.2.1 (by decide)

/-- C4: with `continuedTraining = false` the training set size after a
run is exactly `trainEnd - trainStart + 1` (one pair per index of the
inclusive resolved training window); with `continuedTraining = true` it
additionally grows by exactly one entry per test period processed
(`testEnd - testStart` periods), each step appending one feature vector
regardless of the decision taken, labelled 1 iff the period's outcome is
strictly positive and 0 otherwise. -/
theorem trainingSet_size (o : Oracle) (b : Backtest) :
    (b.continuedTraining = false → o.trainStartIdx ≤ o.trainEndIdx →
      ((runModel o b).XX.getD []).length =
        o.trainEndIdx - o.trainStartIdx + 1 ∧
      ((runModel o b).yy.getD []).length =
        o.trainEndIdx - o.trainStartIdx + 1) ∧
    (b.continuedTraining = true → o.trainStartIdx ≤ o.trainEndIdx →
      ((runModel o b).XX.getD []).length =
        (o.trainEndIdx - o.trainStartIdx + 1) +
          (o.testEndIdx - o.testStartIdx)) ∧
    (∀ (t : ℕ) (s : LoopState), b.continuedTraining = true →
      (testStep o b t s).X.length = s.X.length + 1 ∧
      (testStep o b t s).y =
        s.y ++ [if o.percentChange (t + 1) > 0 then 1 else 0]) := by
  refine ⟨fun hct hw => ?_, fun hct hw => ?_, fun t s hct => ?_⟩
  · rw [runModel_XX, runModel_yy]
    have h := testLoop_X_of_not_ct o b hct (o.testEndIdx - o.testStartIdx)
      o.testStartIdx (initialState o b) rfl
    rw [Option.getD_some, Option.getD_some, h.1, h.2]
    have hX : (initialState o b).X = initialX o b.vars := rfl
    have hy : (initialState o b).y = initialY o := rfl
    rw [hX, hy, initialX_length, initialY_length]
    omega
  · rw [runModel_XX]
    have h := testLoop_len_of_ct o b hct (o.testEndIdx - o.testStartIdx)
      o.testStartIdx (initialState o b) rfl
    rw [Option.getD_some, h.1]
    have hX : (initialState o b).X = initialX o b.vars := rfl
    rw [hX, initialX_length]
    omega
  · rw [testStep_X, testStep_y, hct]
    refine ⟨by simp, ?_⟩
    simp [label]

/-- Witness for C4: on the concrete dataset with continued training off,
the retained training matrix has exactly `trainEnd - trainStart + 1`
rows. -/
theorem trainingSet_size_witness :
    ((runModel oW bW).XX.getD []).length =
      oW.trainEndIdx - oW.trainStartIdx + 1 ∧
    ((runModel oW bW).yy.getD []).length =
      oW.trainEndIdx - oW.trainStartIdx + 1 :=
  (trainingSet_size oW bW).1 rfl (by decide)

/-- C5: for the same dataset and all other configuration fixed, raising
`buyThreshold` never increases `totalBuys`: for thresholds `b1 ≤ b2`, the
run with `b2` produces at most as many buys as the run with `b1`, even
under continued training (the appended training pairs do not depend on
the decision taken). -/
theorem totalBuys_antitone_buyThreshold (o : Oracle) (b : Backtest)
    (b1 b2 : ℚ) (hb : b1 ≤ b2) :
    (runModel o { b with buyThreshold := b2 }).totalBuys ≤
      (runModel o { b with buyThreshold := b1 }).totalBuys := by
  rw [runModel_totalBuys, runModel_totalBuys]
  exact testLoop_buyThreshold_mono o b b1 b2 hb
    (o.testEndIdx - o.testStartIdx) o.testStartIdx
    (initialState o { b with buyThreshold := b1 })
    (initialState o { b with buyThreshold := b2 })
    rfl rfl rfl rfl (le_refl _)

/-- Witness for C5: on the concrete dataset, the run with the higher buy
threshold 1 produces at most as many buys as the run with threshold 0. -/
theorem totalBuys_antitone_buyThreshold_witness :
    (runModel oW { bW with buyThreshold := 1 }).totalBuys ≤
      (runModel oW { bW with buyThreshold := 0 }).totalBuys :=
  totalBuys_antitone_buyThreshold oW bW 0 1 (by decide)

theorem round2_bounds (x : ℚ) (h0 : 0 ≤ x) (h100 : x ≤ 100) :
    0 ≤ round2 x ∧ round2 x ≤ 100 := by
  unfold round2
  dsimp only
  have hs0 : (0 : ℚ) ≤ x * 100 := by linarith
  have hs1 : x * 100 ≤ 10000 := by linarith
  have hf0 : (0 : ℚ) ≤ (⌊x * 100⌋ : ℚ) := by
    exact_mod_cast Int.floor_nonneg.mpr hs0
  have hfle : (⌊x * 100⌋ : ℚ) ≤ x * 100 := Int.floor_le (x * 100)
  have hf1 : (⌊x * 100⌋ : ℚ) ≤ 10000 := le_trans hfle hs1
  split_ifs with h1 h2 h3
  · constructor <;> linarith
  · have hup : (⌊x * 100⌋ : ℚ) + 1 / 2 ≤ x * 100 := by
      push_neg at h1
      linarith
    have hf9 : (⌊x * 100⌋ : ℚ) ≤ 9999 := by
      have h2i : ⌊x * 100⌋ < 10000 := by
        have : (⌊x * 100⌋ : ℚ) < 10000 := by linarith
        exact_mod_cast this
      have : ⌊x * 100⌋ ≤ 9999 := by omega
      exact_mod_cast this
    push_cast
    constructor <;> linarith
  · constructor <;> linarith
  · have hup : (⌊x * 100⌋ : ℚ) + 1 / 2 ≤ x * 100 := by
      push_neg at h1
      linarith
    have hf9 : (⌊x * 100⌋ : ℚ) ≤ 9999 := by
      have h2i : ⌊x * 100⌋ < 10000 := by
        have : (⌊x * 100⌋ : ℚ) < 10000 := by linarith
        exact_mod_cast this
      have : ⌊x * 100⌋ ≤ 9999 := by omega
      exact_mod_cast this
    push_cast
    constructor <;> linarith

/-- C6: `buyStats` returns `round(100 * correctBuys / totalBuys, 2)` when
`totalBuys > 0` and exactly `0.0` when `totalBuys = 0` (the
`ZeroDivisionError` is caught, not propagated); likewise `sellStats` with
the sell counters; and on every reachable counter state (where each
correct counter is at most its total, see the counter invariant) both
results lie in `[0, 100]`. -/
theorem accuracy_contract (b : Backtest)
    (hb : b.correctBuys ≤ b.totalBuys) (hs : b.correctSells ≤ b.totalSells) :
    (b.totalBuys = 0 → buyStats b = 0) ∧
    (b.totalBuys ≠ 0 →
      buyStats b =
        round2 ((b.correctBuys : ℚ) / (b.totalBuys : ℚ) * 100)) ∧
    (b.totalSells = 0 → sellStats b = 0) ∧
    (b.totalSells ≠ 0 →
      sellStats b =
        round2 ((b.correctSells : ℚ) / (b.totalSells : ℚ) * 100)) ∧
    (0 ≤ buyStats b ∧ buyStats b ≤ 100) ∧
    (0 ≤ sellStats b ∧ sellStats b ≤ 100) := by
  have hratio : ∀ c t : ℕ, c ≤ t → t ≠ 0 →
      0 ≤ (c : ℚ) / (t : ℚ) * 100 ∧ (c : ℚ) / (t : ℚ) * 100 ≤ 100 := by
    intro c t hct ht
    have ht0 : (0 : ℚ) < (t : ℚ) := by
      have : 0 < t := Nat.pos_of_ne_zero ht
      exact_mod_cast this
    have hle1 : (c : ℚ) / (t : ℚ) ≤ 1 := by
      rw [div_le_one ht0]
      exact_mod_cast hct
    have hge0 : (0 : ℚ) ≤ (c : ℚ) / (t : ℚ) :=
      div_nonneg (by positivity) (le_of_lt ht0)
    constructor <;> nlinarith
  refine ⟨fun h0 => ?_, fun h0 => ?_, fun h0 => ?_, fun h0 => ?_, ?_, ?_⟩
  · simp [buyStats, h0]
  · simp [buyStats, h0]
  · simp [sellStats, h0]
  · simp [sellStats, h0]
  · by_cases h0 : b.totalBuys = 0
    · simp [buyStats, h0]
    · have hr := hratio b.correctBuys b.totalBuys hb h0
      have := round2_bounds _ hr.1 hr.2
      simpa [buyStats, h0] using this
  · by_cases h0 : b.totalSells = 0
    · simp [sellStats, h0]
    · have hr := hratio b.correctSells b.totalSells hs h0
      have := round2_bounds _ hr.1 hr.2
      simpa [sellStats, h0] using this

/-- A concrete counter state for the accuracy contract: 3 correct of 4
buys, 2 correct of 2 sells. -/
def bW6 : Backtest :=
  { bW with totalBuys := 4, correctBuys := 3, totalSells := 2, correctSells := 2 }

/-- Witness for C6: on the concrete counter state, `buyStats` equals the
rounded percentage and both accuracies lie in `[0, 100]`. -/
theorem accuracy_contract_witness :
    buyStats bW6 = round2 ((bW6.correctBuys : ℚ) / (bW6.totalBuys : ℚ) * 100) ∧
    (0 ≤ buyStats bW6 ∧ buyStats bW6 ≤ 100) ∧
    (0 ≤ sellStats bW6 ∧ sellStats bW6 ≤ 100) := by
  have h := accuracy_contract bW6 (by decide) (by decide)
  exact ⟨h.2.1 (by decide), h.2.2.2.2.1, h.2.2.2.2.2⟩

/-- Spec-side helper: the same engine configuration with all statistics
reset to their construction-time values, i.e. what a fresh instance with
the same configuration would hold. -/
def Backtest.freshStats (b : Backtest) : Backtest :=
  { b with
      stocks := []
      dates := []
      totalBuys := 0
      correctBuys := 0
      totalSells := 0
      correctSells := 0
      XX := none
      yy := none
      model := none }

theorem testLoop_config_eq (o : Oracle) (b b' : Backtest)
    (h : ∀ t s, testStep o b t s = testStep o b' t s) :
    ∀ n t s, o.testEndIdx - t = n → testLoop o b t s = testLoop o b' t s := by
  intro n
  induction n with
  | zero =>
      intro t s hn
      rw [testLoop, if_neg (by omega), testLoop, if_neg (by omega)]
  | succ n ih =>
      intro t s hn
      rw [testLoop, if_pos (by omega), h t s,
        ih (t + 1) (testStep o b' t s) (by omega)]
      conv_rhs => rw [testLoop, if_pos (show t < o.testEndIdx by omega)]

/-- C7: the four counters and the per-run date list are created
empty/zero at engine construction and are never reset by a run: a run
adds its own contribution on top of whatever the counters already hold,
and appends exactly what a fresh instance with the same configuration
would record to the date list, so results accumulate across invocations
of the same instance. -/
theorem stats_cumulative :
    (∀ (vars : List String) (ts te s e : String) (bT sT c g : ℚ) (ct : Bool),
      (Backtest.init vars ts te s e bT sT c g ct).totalBuys = 0 ∧
      (Backtest.init vars ts te s e bT sT c g ct).correctBuys = 0 ∧
      (Backtest.init vars ts te s e bT sT c g ct).totalSells = 0 ∧
      (Backtest.init vars ts te s e bT sT c g ct).correctSells = 0 ∧
      (Backtest.init vars ts te s e bT sT c g ct).dates = []) ∧
    (∀ (o : Oracle) (b : Backtest),
      (runModel o b).totalBuys =
        b.totalBuys + (runModel o b.freshStats).totalBuys ∧
      (runModel o b).correctBuys =
        b.correctBuys + (runModel o b.freshStats).correctBuys ∧
      (runModel o b).totalSells =
        b.totalSells + (runModel o b.freshStats).totalSells ∧
      (runModel o b).correctSells =
        b.correctSells + (runModel o b.freshStats).correctSells ∧
      (runModel o b).dates = b.dates ++ (runModel o b.freshStats).dates) := by
  constructor
  · intro vars ts te s e bT sT c g ct
    exact ⟨rfl, rfl, rfl, rfl, rfl⟩
  · intro o b
    have hstep : ∀ t s, testStep o b.freshStats t s = testStep o b t s :=
      fun t s => rfl
    have hloop : ∀ t s, testLoop o b.freshStats t s = testLoop o b t s :=
      fun t s =>
        testLoop_config_eq o b.freshStats b hstep (o.testEndIdx - t) t s rfl
    have hinit : initialState o b =
        addCounters (b.totalBuys, b.correctBuys, b.totalSells, b.correctSells)
          (initialState o b.freshStats) := rfl
    have hadd := testLoop_addCounters o b
      (b.totalBuys, b.correctBuys, b.totalSells, b.correctSells)
      (o.testEndIdx - o.testStartIdx) o.testStartIdx
      (initialState o b.freshStats) rfl
    refine ⟨?_, ?_, ?_, ?_, ?_⟩
    · rw [runModel_totalBuys, runModel_totalBuys, hloop, hinit, hadd]
      rfl
    · rw [runModel_correctBuys, runModel_correctBuys, hloop, hinit, hadd]
      rfl
    · rw [runModel_totalSells, runModel_totalSells, hloop, hinit, hadd]
      rfl
    · rw [runModel_correctSells, runModel_correctSells, hloop, hinit, hadd]
      rfl
    · rw [runModel_dates, runModel_dates]
      rfl

/-- C8: visualization requires exactly 2 configured features and a
completed run (retained matrices and fitted model); if either
precondition fails — in particular before any run, when the retained
state is still `None` — the call reports a precondition error and never
reaches the plot-saving outcome, producing no file. -/
theorem visualize_precondition (b : Backtest)
    (h : b.vars.length ≠ 2 ∨ b.XX = none ∨ b.yy = none ∨ b.model = none) :
    (visualizeModel b).isError = true ∧
    ∀ filename, visualizeModel b ≠ VizOutcome.saved filename := by
  have herr : (visualizeModel b).isError = true := by
    unfold visualizeModel
    by_cases hv : b.vars.length ≠ 2
    · rw [if_pos hv]
      rfl
    · rcases h with h | h
      · exact absurd h hv
      all_goals
        rw [if_neg hv, if_pos (by tauto)]
        rfl
  refine ⟨herr, fun filename heq => ?_⟩
  rw [heq] at herr
  exact Bool.false_ne_true herr

/-- Witness for C8: on a freshly constructed engine (no run yet, retained
state `None`), visualization reports a precondition error. -/
theorem visualize_precondition_witness :
    (visualizeModel bW).isError = true ∧
    ∀ filename, visualizeModel bW ≠ VizOutcome.saved filename :=
  visualize_precondition bW (Or.inr (Or.inl rfl))

/-- C9 counterexample: the constructor accepts a `buyThreshold` outside
`[0, 1]` without any error: construction with `buyThreshold = 2` succeeds
and stores the out-of-range value unchanged, so no configuration error is
raised for it. -/
theorem threshold_no_validation_counterexample :
    (Backtest.init ["EMA8"] "2013-03-01" "2015-03-01" "2015-03-01"
        "2016-06-01" 2 (65 / 100) 1 10 false).buyThreshold = 2 ∧
    ¬ ((2 : ℚ) ≤ 1) :=
  ⟨rfl, by decide⟩

/-- C9 amended: constructing a run configuration performs no validation
of `buyThreshold` or `sellThreshold`: every value, including values
outside `[0, 1]`, is silently accepted and stored unchanged, and no
configuration error exists in the constructor. -/
theorem threshold_stored_unvalidated (vars : List String)
    (ts te s e : String) (bT sT c g : ℚ) (ct : Bool) :
    (Backtest.init vars ts te s e bT sT c g ct).buyThreshold = bT ∧
    (Backtest.init vars ts te s e bT sT c g ct).sellThreshold = sT :=
  ⟨rfl, rfl⟩

/-- C10: at construction and after any run, `correctBuys ≤ totalBuys` and
`correctSells ≤ totalSells`: each correct counter is incremented only in
an iteration that already incremented the corresponding total, so the
accuracy ratios are well-defined fractions at most 1. -/
theorem correct_le_total :
    (∀ (vars : List String) (ts te s e : String) (bT sT c g : ℚ) (ct : Bool),
      (Backtest.init vars ts te s e bT sT c g ct).correctBuys ≤
        (Backtest.init vars ts te s e bT sT c g ct).totalBuys ∧
      (Backtest.init vars ts te s e bT sT c g ct).correctSells ≤
        (Backtest.init vars ts te s e bT sT c g ct).totalSells) ∧
    (∀ (o : Oracle) (b : Backtest),
      b.correctBuys ≤ b.totalBuys → b.correctSells ≤ b.totalSells →
      (runModel o b).correctBuys ≤ (runModel o b).totalBuys ∧
      (runModel o b).correctSells ≤ (runModel o b).totalSells) := by
  constructor
  · intro vars ts te s e bT sT c g ct
    exact ⟨le_refl _, le_refl _⟩
  · intro o b hb hs
    rw [runModel_correctBuys, runModel_totalBuys, runModel_correctSells,
      runModel_totalSells]
    exact testLoop_counters_le o b (o.testEndIdx - o.testStartIdx)
      o.testStartIdx (initialState o b) rfl hb hs

/-- Witness for C10: the counter invariant holds after a concrete run on
the fresh concrete engine. -/
theorem correct_le_total_witness :
    (runModel oW bW).correctBuys ≤ (runModel oW bW).totalBuys ∧
    (runModel oW bW).correctSells ≤ (runModel oW bW).totalSells :=
  correct_le_total.2 oW bW (by decide) (by decide)
